import Mathlib

/-!
Verification of the Speak Easier dubbing client and server.

The TypeScript source is embedded shallowly:

* TranslationInterface.vue : the component refs become the fields of TIState,
  and each script function becomes a Lean function from the state (plus the
  observed network outcome, since fetch results arrive from outside) to the
  new state together with the list of requests it issues.  Timers are made
  explicit: pollingInterval and countdownInterval store the absolute time in
  milliseconds of their next fire (none = cleared), matching the single
  stored handle of each in the component; the deferred window.setTimeout
  scheduled by uploadAndTranslate stores no handle in the source, so its
  pending fire time lives in the surrounding system state Sys.
* A small event semantics Sys.step drives the component: browser events
  (upload responses, timer fires, language swaps, recording) occur at
  monotonically non-decreasing times, and legalEvent says when an event may
  occur (a timer fires only at its scheduled time while it is pending).
* server/index.ts parameter handling and ConversationInterface.vue are
  embedded further below.

JavaScript specifics kept by the embedding: the JS default operator
(x || d) treats 0 and the empty string as missing (resolveExpectedDuration,
jsOr); string interpolation of a thrown Error value prepends the text
"Error: " once more (jsErrorToString).
-/

namespace SpeakEasier

/-- Network requests and externally visible actions issued by the
TranslationInterface component. Setting targetAudioUrl makes the browser
fetch the audio stream once, modelled as audioReq; emitComplete is the
translation-complete event delivered to ConversationInterface. -/
inductive Request where
  | uploadReq : Request
  | statusReq : String → Request
  | audioReq : String → Request
  | emitComplete : String → Request
deriving DecidableEq, Repr

def Request.isStatus : Request → Bool
  | .statusReq _ => true
  | _ => false

def Request.isAudio : Request → Bool
  | .audioReq _ => true
  | _ => false

/-- JSON body of a successful POST /api/upload response, as read by the
client: data.dubbing_id and the possibly absent data.expected_duration_sec. -/
structure UploadResponse where
  dubbing_id : String
  expected_duration_sec : Option Nat
deriving DecidableEq, Repr

/-- Outcome of the upload fetch: a 2xx JSON response, a non-2xx status code
(the code throws on !response.ok), or a rejected fetch promise carrying the
stringified error. -/
inductive UploadOutcome where
  | ok : UploadResponse → UploadOutcome
  | httpError : Nat → UploadOutcome
  | netError : String → UploadOutcome
deriving DecidableEq, Repr

/-- Outcome of one status poll fetch: a 2xx response carrying data.status,
a non-2xx status code, or a rejected fetch promise. -/
inductive PollOutcome where
  | ok : String → PollOutcome
  | httpError : Nat → PollOutcome
  | netError : String → PollOutcome
deriving DecidableEq, Repr

/-- The refs of TranslationInterface.vue. audioBlob keeps whether a blob is
present; pollingInterval and countdownInterval hold the next scheduled fire
time in ms (none = no interval). mediaRecorder and recordedChunks carry no
behaviour relevant to the claims and are omitted. -/
structure TIState where
  audioBlob : Bool
  isRecording : Bool
  recordingStatus : String
  translationId : String
  translationStatus : String
  expectedDuration : Nat
  remainingSeconds : Nat
  pollingInterval : Option Nat
  countdownInterval : Option Nat
  sourceLanguage : String
  targetLanguage : String
  sourceAudioUrl : String
  targetAudioUrl : String
deriving DecidableEq, Repr

/-- Initial ref values of the component (script setup). -/
def initState : TIState :=
  { audioBlob := false
    isRecording := false
    recordingStatus := ""
    translationId := ""
    translationStatus := ""
    expectedDuration := 0
    remainingSeconds := 0
    pollingInterval := none
    countdownInterval := none
    sourceLanguage := "en"
    targetLanguage := "es"
    sourceAudioUrl := ""
    targetAudioUrl := "" }

/-- JS stringification String(e) of an Error object with message msg. -/
def jsErrorToString (msg : String) : String := "Error: " ++ msg

/-- The formattedRemainingTime computed property. -/
def formattedRemainingTime (remainingSeconds : Nat) : String :=
  let minutes := remainingSeconds / 60
  if minutes > 1 then "About " ++ toString minutes ++ " minutes"
  else if minutes = 1 then "About 1 minute"
  else "Less than a minute"

/-- Translation status message shown while the countdown runs. -/
def progressMessage (remainingSeconds : Nat) : String :=
  "Translation in progress... (" ++ formattedRemainingTime remainingSeconds
    ++ " remaining)"

/-- The expression data.expected_duration_sec || 10 of uploadAndTranslate:
the JS or-default, under which an absent field and a zero value both fall
back to 10. -/
def resolveExpectedDuration : Option Nat → Nat
  | none => 10
  | some n => if n = 0 then 10 else n

/-- uploadAndTranslate, given the outcome of the upload fetch. Returns the
new state, the requests issued, and the delay in ms of the setTimeout it
schedules (none when no timer is scheduled). On success it also starts the
countdown interval (startCountdownTimer), whose first fire is now + 1000. -/
def uploadAndTranslate (now : Nat) (st : TIState) (o : UploadOutcome) :
    TIState × List Request × Option Nat :=
  if st.audioBlob = false then
    ({ st with recordingStatus := "No audio recorded" }, [], none)
  else
    match o with
    | .ok resp =>
        let d := resolveExpectedDuration resp.expected_duration_sec
        ({ st with
            recordingStatus := "Uploaded successfully"
            translationId := resp.dubbing_id
            expectedDuration := d
            remainingSeconds := d
            translationStatus := progressMessage d
            countdownInterval := some (now + 1000) },
         [.uploadReq], some (d * 1000))
    | .httpError code =>
        ({ st with
            recordingStatus :=
              "Error: " ++ jsErrorToString ("Upload failed: " ++ toString code) },
         [.uploadReq], none)
    | .netError msg =>
        ({ st with recordingStatus := "Error: " ++ msg }, [.uploadReq], none)

/-- startPolling: sets the status message and starts the 3000 ms interval
(first fire at now + 3000). The source overwrites any previously stored
interval handle without clearing it. -/
def startPolling (now : Nat) (st : TIState) : TIState :=
  { st with
      translationStatus := "Checking translation status..."
      pollingInterval := some (now + 3000) }

/-- Body of the countdown interval callback in startCountdownTimer: while
seconds remain, decrement and refresh the message (the computed property
reads the decremented value); at zero, clear the countdown interval. -/
def countdownTick (st : TIState) : TIState :=
  if st.remainingSeconds > 0 then
    { st with
        remainingSeconds := st.remainingSeconds - 1
        translationStatus := progressMessage (st.remainingSeconds - 1) }
  else
    { st with countdownInterval := none }

/-- loadTranslatedAudio: builds the streaming URL, stores it (the audio
element then fetches it once and the intermediate message
"Loading translated audio..." is immediately overwritten), and emits the
translation-complete event. The catch branch of the source is unreachable
because nothing in the try body rejects. -/
def loadTranslatedAudio (st : TIState) : TIState × List Request :=
  ({ st with
      translationStatus := "Translation complete"
      targetAudioUrl := "/api/translations/" ++ st.translationId
        ++ "/audio?target_lang=" ++ st.targetLanguage },
   [.audioReq st.translationId, .emitComplete st.translationId])

/-- checkTranslationStatus, given the outcome of the status fetch. The
leading guard returns before any fetch when translationId is empty (JS
falsiness of the empty string), so that branch issues no request. Past the
guard the status fetch has been issued. On a terminal status both intervals
are cleared and loadTranslatedAudio runs; on a fetch error the catch only
sets the status message and clears nothing. -/
def checkTranslationStatus (st : TIState) (r : PollOutcome) :
    TIState × List Request :=
  if st.translationId = "" then (st, [])
  else
    match r with
    | .ok status =>
        let st1 := { st with translationStatus := "Status: " ++ status }
        if status == "done" || status == "dubbed" then
          let st2 := { st1 with pollingInterval := none, countdownInterval := none }
          ((loadTranslatedAudio st2).1,
           .statusReq st.translationId :: (loadTranslatedAudio st2).2)
        else (st1, [.statusReq st.translationId])
    | .httpError code =>
        ({ st with
            translationStatus :=
              "Error: " ++ jsErrorToString ("Status check failed: " ++ toString code) },
         [.statusReq st.translationId])
    | .netError msg =>
        ({ st with translationStatus := "Error: " ++ msg },
         [.statusReq st.translationId])

/-- stopRecording: stops the recorder; the onstop flush is asynchronous and
modelled separately in stopRecordingFlush. -/
def stopRecording (st : TIState) : TIState :=
  if st.isRecording then { st with isRecording := false } else st

/-- The user-facing stop path: stopRecording followed by the onstop handler,
which stores the recorded blob and its object URL. -/
def stopRecordingFlush (st : TIState) : TIState :=
  if st.isRecording then
    { st with
        isRecording := false
        audioBlob := true
        sourceAudioUrl := "blob:recording"
        recordingStatus := "Recording stopped. Ready to translate." }
  else st

/-- Success path of startRecording: clears the chunk buffer, creates the
recorder and flips the recording flag. No timer and no translation field is
touched. -/
def startRecording (st : TIState) : TIState :=
  { st with isRecording := true, recordingStatus := "Recording..." }

/-- resetRecordingState: stops an active recording, clears recording and
translation data and clears both stored intervals. The deferred setTimeout
of uploadAndTranslate has no stored handle and is not (and cannot be)
cancelled here. -/
def resetRecordingState (st : TIState) : TIState :=
  let st1 := if st.isRecording then stopRecording st else st
  { st1 with
      audioBlob := false
      sourceAudioUrl := ""
      recordingStatus := ""
      translationId := ""
      translationStatus := ""
      targetAudioUrl := ""
      pollingInterval := none
      countdownInterval := none
      remainingSeconds := 0 }

/-- swapLanguages: reset, then exchange the two language codes. The watchers
on the language refs fire resetRecordingState once more afterwards, which is
idempotent on the already reset state. -/
def swapLanguages (st : TIState) : TIState :=
  { resetRecordingState st with
      sourceLanguage := st.targetLanguage
      targetLanguage := st.sourceLanguage }

/-- The component together with its environment: current time in ms and the
fire times of pending deferred setTimeout timers (uploadAndTranslate never
stores their handles). -/
structure Sys where
  st : TIState
  now : Nat
  timeouts : List Nat
deriving DecidableEq, Repr

def initSys : Sys := { st := initState, now := 0, timeouts := [] }

/-- Events driving the component, each carrying its occurrence time. -/
inductive Event where
  | uploadDone : Nat → UploadOutcome → Event
  | timeoutFire : Nat → Event
  | intervalFire : Nat → PollOutcome → Event
  | countdownFire : Nat → Event
  | swapEvt : Nat → Event
  | startRecEvt : Nat → Event
  | stopRecEvt : Nat → Event
deriving DecidableEq, Repr

def Event.time : Event → Nat
  | .uploadDone t _ => t
  | .timeoutFire t => t
  | .intervalFire t _ => t
  | .countdownFire t => t
  | .swapEvt t => t
  | .startRecEvt t => t
  | .stopRecEvt t => t

def Event.isUpload : Event → Bool
  | .uploadDone _ _ => true
  | _ => false

/-- When an event may occur: time is non-decreasing, a deferred timer fires
only while pending at its scheduled time, and an interval fires only at its
scheduled next time. -/
def legalEvent (s : Sys) : Event → Bool
  | .uploadDone t _ => decide (s.now ≤ t)
  | .timeoutFire t => decide (s.now ≤ t) && decide (t ∈ s.timeouts)
  | .intervalFire t _ => decide (s.now ≤ t) && decide (s.st.pollingInterval = some t)
  | .countdownFire t => decide (s.now ≤ t) && decide (s.st.countdownInterval = some t)
  | .swapEvt t => decide (s.now ≤ t)
  | .startRecEvt t => decide (s.now ≤ t)
  | .stopRecEvt t => decide (s.now ≤ t)

/-- One step of the event semantics. Interval fires reschedule the interval
to t + period before running the callback, so a clearInterval inside the
callback wins, exactly as for a live JS interval. -/
def Sys.step (s : Sys) : Event → Sys × List Request
  | .uploadDone t o =>
      let r := uploadAndTranslate t s.st o
      ({ st := r.1, now := t,
         timeouts :=
           match r.2.2 with
           | none => s.timeouts
           | some d => s.timeouts ++ [t + d] },
       r.2.1)
  | .timeoutFire t =>
      ({ st := startPolling t s.st, now := t, timeouts := s.timeouts.erase t }, [])
  | .intervalFire t r =>
      let p := checkTranslationStatus { s.st with pollingInterval := some (t + 3000) } r
      ({ st := p.1, now := t, timeouts := s.timeouts }, p.2)
  | .countdownFire t =>
      ({ st := countdownTick { s.st with countdownInterval := some (t + 1000) },
         now := t, timeouts := s.timeouts }, [])
  | .swapEvt t =>
      ({ st := swapLanguages s.st, now := t, timeouts := s.timeouts }, [])
  | .startRecEvt t =>
      ({ st := startRecording s.st, now := t, timeouts := s.timeouts }, [])
  | .stopRecEvt t =>
      ({ st := stopRecordingFlush s.st, now := t, timeouts := s.timeouts }, [])

/-- Run a list of events, collecting each issued request with the time of
the event that issued it. -/
def Sys.run : Sys → List Event → Sys × List (Nat × Request)
  | s, [] => (s, [])
  | s, e :: es =>
      ((Sys.run (s.step e).1 es).1,
       (s.step e).2.map (fun r => (e.time, r)) ++ (Sys.run (s.step e).1 es).2)

/-- A trace is legal when every event is legal in the state it meets. -/
def legalTrace : Sys → List Event → Bool
  | _, [] => true
  | s, e :: es => legalEvent s e && legalTrace (s.step e).1 es

/-- The status message shown for a failed upload (none for a success):
either the non-2xx branch that throws and interpolates the Error, or the
rejected fetch stringified directly. -/
def UploadOutcome.failureMessage : UploadOutcome → Option String
  | .ok _ => none
  | .httpError code =>
      some ("Error: " ++ jsErrorToString ("Upload failed: " ++ toString code))
  | .netError msg => some ("Error: " ++ msg)

/-- No deferred timer pending and no polling interval scheduled. -/
def P0Prop (s : Sys) : Prop :=
  s.timeouts = [] ∧ s.st.pollingInterval = none

/-- Every pending or scheduled timer fires no earlier than B. -/
def PbProp (B : Nat) (s : Sys) : Prop :=
  (∀ x ∈ s.timeouts, B ≤ x) ∧
  (∀ tp, s.st.pollingInterval = some tp → B ≤ tp)

/-- A component mid-poll, used to exercise a failing status fetch. -/
def c1Sys : Sys :=
  { st := { initState with translationId := "abc", pollingInterval := some 9000 },
    now := 8000, timeouts := [] }

/-- Record, stop, upload a five second job, then swap languages one second
later, while the deferred first check is still pending. -/
def c2Events : List Event :=
  [.startRecEvt 0, .stopRecEvt 0, .uploadDone 0 (.ok ⟨"abc", some 5⟩), .swapEvt 1000]

/-- A component mid-poll when the user starts a new recording. -/
def c2RecSys : Sys :=
  { st := { initState with
              translationId := "abc"
              pollingInterval := some 5000
              audioBlob := true }
    now := 3000
    timeouts := [] }

/-- A component mid-poll about to observe a terminal status. -/
def c3Sys : Sys :=
  { st := { initState with translationId := "abc", pollingInterval := some 9000 },
    now := 8000, timeouts := [] }

/-- A component after its polling run has ended: interval cleared, no
deferred timer pending. -/
def c3QuietSys : Sys :=
  { st := { initState with
              translationId := "abc"
              translationStatus := "Translation complete" }
    now := 11000
    timeouts := [] }

def c4Pre : List Event := [.startRecEvt 0, .stopRecEvt 0]

def c4Resp : UploadResponse := { dubbing_id := "abc", expected_duration_sec := some 5 }

def c4Post : List Event :=
  [.timeoutFire 5000, .intervalFire 8000 (.ok "in progress"),
   .intervalFire 11000 (.ok "done")]

/-- A component holding a recorded blob, ready to upload. -/
def c5St : TIState := { initState with audioBlob := true }

/-- A fresh component holding a recorded blob, ready for an upload that will
fail. -/
def c8Sys : Sys :=
  { st := { initState with audioBlob := true }, now := 0, timeouts := [] }

end SpeakEasier

namespace SpeakEasier.Server

/-- The JS or-default x || d applied to a request parameter: an absent
parameter and the empty string (both falsy) yield the default. -/
def jsOr : Option String → String → String
  | none, d => d
  | some s, d => if s = "" then d else s

/-- Parameter resolution of POST /api/upload: the (source_lang, target_lang)
pair forwarded to the dubbing client. -/
def uploadArgs (source_lang target_lang : Option String) : String × String :=
  (jsOr source_lang "en", jsOr target_lang "es")

/-- Parameter resolution of GET /api/translations/:id/audio and of
/api/translations/:id/download: the target_lang query forwarded to
getDubbedFile. -/
def audioTargetLang (target_lang : Option String) : String :=
  jsOr target_lang "es"

/-- Query parameters of GET /api/translations/:id/transcript. -/
structure TranscriptQuery where
  language : Option String
  target_lang : Option String
  source_lang : Option String
  format : Option String
deriving DecidableEq, Repr

/-- Parameter resolution of the transcript endpoint: the (langCode, format)
pair forwarded to getTranscriptForDub. The language selector defaults to
"target"; the language code is source_lang exactly when it resolves to
"source", else target_lang. -/
def transcriptArgs (q : TranscriptQuery) : String × String :=
  let language := jsOr q.language "target"
  let targetLang := jsOr q.target_lang "es"
  let sourceLang := jsOr q.source_lang "en"
  let formatType := jsOr q.format "srt"
  let langCode := if language = "source" then sourceLang else targetLang
  (langCode, formatType)

end SpeakEasier.Server

namespace SpeakEasier.Conv

/-- Payload of the translation-complete event received by addTranslation. -/
structure Translation where
  id : String
  sourceLanguage : String
  targetLanguage : String
  sourceAudioUrl : String
  targetAudioUrl : String
  translationId : String
deriving DecidableEq, Repr

/-- One entry of the conversations array. -/
structure ConvEntry where
  id : String
  sourceLanguage : String
  targetLanguage : String
  sourceAudioUrl : String
  targetAudioUrl : String
  translationId : String
  timestamp : Nat
  targetTranscript : Option String
deriving DecidableEq, Repr

/-- State of ConversationInterface.vue relevant to the claims. -/
structure ConvState where
  conversations : List ConvEntry
  currentSourceLang : String
  currentTargetLang : String
deriving DecidableEq, Repr

def initConv : ConvState :=
  { conversations := [], currentSourceLang := "en", currentTargetLang := "es" }

/-- Externally visible actions of addTranslation: the transcript fetch and a
console.error log line. -/
inductive ConvEffect where
  | transcriptReq : String → ConvEffect
  | logError : String → ConvEffect
deriving DecidableEq, Repr

def ConvEffect.isTranscriptReq : ConvEffect → Bool
  | .transcriptReq _ => true
  | _ => false

def ConvEffect.isLogError : ConvEffect → Bool
  | .logError _ => true
  | _ => false

/-- Outcome of the transcript fetch: a 2xx response with the transcript
text, a non-2xx response (response.ok false), or a rejected promise. -/
inductive TranscriptOutcome where
  | ok : String → TranscriptOutcome
  | notOk : Nat → TranscriptOutcome
  | thrown : String → TranscriptOutcome
deriving DecidableEq, Repr

def TranscriptOutcome.isFailure : TranscriptOutcome → Bool
  | .ok _ => false
  | _ => true

/-- The conversation object pushed by addTranslation: the payload plus a
timestamp, with no transcript yet. -/
def mkConvEntry (t : Nat) (tr : Translation) : ConvEntry :=
  { id := tr.id
    sourceLanguage := tr.sourceLanguage
    targetLanguage := tr.targetLanguage
    sourceAudioUrl := tr.sourceAudioUrl
    targetAudioUrl := tr.targetAudioUrl
    translationId := tr.translationId
    timestamp := t
    targetTranscript := none }

/-- Array.prototype.find followed by the transcript assignment: attach the
transcript to the first entry whose id matches. -/
def updateTranscript (id text : String) : List ConvEntry → List ConvEntry
  | [] => []
  | c :: rest =>
      if c.id = id then { c with targetTranscript := some text } :: rest
      else c :: updateTranscript id text rest

/-- addTranslation: push the entry first (content shows immediately), update
the current languages, then fetch the target transcript. A 2xx response
attaches the transcript to the matching entry; a non-2xx response is ignored
without any action (the ok-guard has no else branch); a rejected promise is
only logged by the catch. -/
def addTranslation (t : Nat) (cs : ConvState) (tr : Translation)
    (o : TranscriptOutcome) : ConvState × List ConvEffect :=
  let cs1 := { cs with
      conversations := cs.conversations ++ [mkConvEntry t tr]
      currentSourceLang := tr.sourceLanguage
      currentTargetLang := tr.targetLanguage }
  match o with
  | .ok text =>
      ({ cs1 with conversations := updateTranscript tr.id text cs1.conversations },
       [.transcriptReq tr.translationId])
  | .notOk _ => (cs1, [.transcriptReq tr.translationId])
  | .thrown msg =>
      (cs1, [.transcriptReq tr.translationId,
             .logError ("Error fetching transcript: " ++ msg)])

/-- formatTranscript helper: a trimmed line consisting only of digits, as
tested by the sequence number regular expression. -/
def isAllDigits (s : String) : Bool :=
  s != "" && s.all Char.isDigit

/-- Whether pat occurs as a contiguous run inside the character list. -/
def hasInfixChars (pat : List Char) : List Char → Bool
  | [] => pat.isEmpty
  | c :: rest =>
      if pat.isPrefixOf (c :: rest) then true else hasInfixChars pat rest

/-- The String.prototype.includes check for the timestamp marker. -/
def hasArrow (s : String) : Bool :=
  hasInfixChars ("-->".data) s.data

/-- Loop body of formatTranscript: skip sequence numbers, timestamp lines
and blank lines, keep the trimmed text lines in order. -/
def collectTextLines : List String → List String
  | [] => []
  | l :: rest =>
      if isAllDigits l.trim then collectTextLines rest
      else if hasArrow l then collectTextLines rest
      else if l.trim = "" then collectTextLines rest
      else l.trim :: collectTextLines rest

/-- formatTranscript of ConversationInterface.vue: the falsy guard returns
the empty string unchanged; otherwise split on newlines, filter, and join
the kept lines with single spaces. -/
def formatTranscript (srtContent : String) : String :=
  if srtContent = "" then ""
  else String.intercalate " " (collectTextLines (srtContent.splitOn "\n"))

/-- Modelled from the claim wording for comparison with formatTranscript:
keep the lines that are non-empty after trimming, are not all digits after
trimming, and do not contain the timestamp marker; return their trimmed
forms joined by single spaces, and the empty string for empty input. -/
def claimKeep (l : String) : Bool :=
  l.trim != "" && !isAllDigits l.trim && !hasArrow l

def claimFormatTranscript (s : String) : String :=
  if s = "" then ""
  else String.intercalate " " (((s.splitOn "\n").filter claimKeep).map String.trim)

/-- A completed translation payload used to exercise addTranslation. -/
def c7Tr : Translation :=
  { id := "1"
    sourceLanguage := "en"
    targetLanguage := "es"
    sourceAudioUrl := "blob:recording"
    targetAudioUrl := "/api/translations/abc/audio?target_lang=es"
    translationId := "abc" }

end SpeakEasier.Conv

namespace SpeakEasier

theorem countdownTick_polling (st : TIState) :
    (countdownTick st).pollingInterval = st.pollingInterval := by
  unfold countdownTick; split <;> rfl

theorem stopRecordingFlush_polling (st : TIState) :
    (stopRecordingFlush st).pollingInterval = st.pollingInterval := by
  unfold stopRecordingFlush; split <;> rfl

theorem checkTS_polling (st : TIState) (r : PollOutcome) :
    (checkTranslationStatus st r).1.pollingInterval = st.pollingInterval ∨
    (checkTranslationStatus st r).1.pollingInterval = none := by
  by_cases h : st.translationId = ""
  · left; simp [checkTranslationStatus, h]
  · cases r with
    | ok status =>
        cases ht : (status == "done" || status == "dubbed") with
        | true => right; simp [checkTranslationStatus, h, ht, loadTranslatedAudio]
        | false => left; simp [checkTranslationStatus, h, ht]
    | httpError code => left; simp [checkTranslationStatus, h]
    | netError msg => left; simp [checkTranslationStatus, h]

theorem checkTS_emits_status (st : TIState) (r : PollOutcome)
    (hid : st.translationId ≠ "") :
    .statusReq st.translationId ∈ (checkTranslationStatus st r).2 := by
  cases r with
  | ok status =>
      cases ht : (status == "done" || status == "dubbed") with
      | true => simp [checkTranslationStatus, hid, ht]
      | false => simp [checkTranslationStatus, hid, ht]
  | httpError code => simp [checkTranslationStatus, hid]
  | netError msg => simp [checkTranslationStatus, hid]

theorem p0_step (s : Sys) (e : Event) (hP : P0Prop s)
    (hU : e.isUpload = false) (hL : legalEvent s e = true) :
    P0Prop (s.step e).1 ∧ (s.step e).2 = [] := by
  cases e with
  | uploadDone t o => simp [Event.isUpload] at hU
  | timeoutFire t =>
      exfalso
      simp [legalEvent, hP.1] at hL
  | intervalFire t r =>
      exfalso
      simp [legalEvent, hP.2] at hL
  | countdownFire t =>
      refine ⟨⟨hP.1, ?_⟩, rfl⟩
      have h := countdownTick_polling
        { s.st with countdownInterval := some (t + 1000) }
      show (countdownTick { s.st with countdownInterval := some (t + 1000) }).pollingInterval = none
      rw [h]; exact hP.2
  | swapEvt t => exact ⟨⟨hP.1, rfl⟩, rfl⟩
  | startRecEvt t => exact ⟨⟨hP.1, hP.2⟩, rfl⟩
  | stopRecEvt t =>
      refine ⟨⟨hP.1, ?_⟩, rfl⟩
      show (stopRecordingFlush s.st).pollingInterval = none
      rw [stopRecordingFlush_polling]; exact hP.2

theorem p0_run (es : List Event) (s : Sys) (hP : P0Prop s)
    (hU : ∀ e ∈ es, e.isUpload = false) (hL : legalTrace s es = true) :
    P0Prop (s.run es).1 ∧ (s.run es).2 = [] := by
  induction es generalizing s with
  | nil => exact ⟨hP, rfl⟩
  | cons e es ih =>
      have hL' : legalEvent s e = true ∧ legalTrace (s.step e).1 es = true := by
        simpa [legalTrace] using hL
      obtain ⟨h1, h2⟩ := p0_step s e hP (hU e (by simp)) hL'.1
      obtain ⟨h3, h4⟩ := ih (s.step e).1 h1 (fun x hx => hU x (by simp [hx])) hL'.2
      refine ⟨h3, ?_⟩
      simp [Sys.run, h2, h4]

theorem pb_step (B : Nat) (s : Sys) (e : Event) (hP : PbProp B s)
    (hU : e.isUpload = false) (hL : legalEvent s e = true) :
    PbProp B (s.step e).1 ∧
    (∀ r ∈ (s.step e).2, Request.isStatus r = true → B ≤ e.time) := by
  cases e with
  | uploadDone t o => simp [Event.isUpload] at hU
  | timeoutFire t =>
      have hmem : t ∈ s.timeouts := by
        simp [legalEvent] at hL; exact hL.2
      have hBt : B ≤ t := hP.1 t hmem
      refine ⟨⟨?_, ?_⟩, ?_⟩
      · intro x hx
        exact hP.1 x (List.mem_of_mem_erase hx)
      · intro tp htp
        have : some (t + 3000) = some tp := htp
        have : t + 3000 = tp := by injection this
        omega
      · intro r hr
        simp [Sys.step] at hr
  | intervalFire t r =>
      have hsome : s.st.pollingInterval = some t := by
        simp [legalEvent] at hL; exact hL.2
      have hBt : B ≤ t := hP.2 t hsome
      refine ⟨⟨?_, ?_⟩, ?_⟩
      · intro x hx
        exact hP.1 x hx
      · intro tp htp
        have hstep : (s.step (Event.intervalFire t r)).1.st =
            (checkTranslationStatus { s.st with pollingInterval := some (t + 3000) } r).1 := rfl
        rw [hstep] at htp
        rcases checkTS_polling { s.st with pollingInterval := some (t + 3000) } r with hc | hc
        · rw [hc] at htp
          have : t + 3000 = tp := by injection htp
          omega
        · rw [hc] at htp
          exact absurd htp (by simp)
      · intro req hreq hstat
        exact hBt.trans (Nat.le_refl t)
  | countdownFire t =>
      refine ⟨⟨hP.1, ?_⟩, ?_⟩
      · intro tp htp
        have h := countdownTick_polling
          { s.st with countdownInterval := some (t + 1000) }
        have : (s.step (Event.countdownFire t)).1.st.pollingInterval
            = s.st.pollingInterval := h
        rw [this] at htp
        exact hP.2 tp htp
      · intro r hr
        simp [Sys.step] at hr
  | swapEvt t =>
      refine ⟨⟨hP.1, ?_⟩, ?_⟩
      · intro tp htp
        exact absurd htp (by simp [Sys.step, swapLanguages, resetRecordingState])
      · intro r hr
        simp [Sys.step] at hr
  | startRecEvt t =>
      refine ⟨⟨hP.1, hP.2⟩, ?_⟩
      intro r hr
      simp [Sys.step] at hr
  | stopRecEvt t =>
      refine ⟨⟨hP.1, ?_⟩, ?_⟩
      · intro tp htp
        have : (s.step (Event.stopRecEvt t)).1.st.pollingInterval
            = s.st.pollingInterval := stopRecordingFlush_polling s.st
        rw [this] at htp
        exact hP.2 tp htp
      · intro r hr
        simp [Sys.step] at hr

theorem pb_run (es : List Event) (s : Sys) (B : Nat) (hP : PbProp B s)
    (hU : ∀ e ∈ es, e.isUpload = false) (hL : legalTrace s es = true) :
    ∀ p ∈ (s.run es).2, Request.isStatus p.2 = true → B ≤ p.1 := by
  induction es generalizing s with
  | nil =>
      intro p hp
      simp [Sys.run] at hp
  | cons e es ih =>
      have hL' : legalEvent s e = true ∧ legalTrace (s.step e).1 es = true := by
        simpa [legalTrace] using hL
      obtain ⟨h1, h2⟩ := pb_step B s e hP (hU e (by simp)) hL'.1
      intro p hp hstat
      have hp' : (∃ a ∈ (s.step e).2, (e.time, a) = p) ∨ p ∈ ((s.step e).1.run es).2 := by
        simpa [Sys.run] using hp
      rcases hp' with ⟨r, hr, rfl⟩ | hp2
      · exact h2 r hr hstat
      · exact ih (s.step e).1 h1 (fun x hx => hU x (by simp [hx])) hL'.2 p hp2 hstat

theorem run_append (s : Sys) (es1 es2 : List Event) :
    s.run (es1 ++ es2) =
      (((s.run es1).1.run es2).1, (s.run es1).2 ++ ((s.run es1).1.run es2).2) := by
  induction es1 generalizing s with
  | nil => simp [Sys.run]
  | cons e es ih => simp [Sys.run, ih]

theorem legalTrace_append (s : Sys) (es1 es2 : List Event) :
    legalTrace s (es1 ++ es2)
      = (legalTrace s es1 && legalTrace (s.run es1).1 es2) := by
  induction es1 generalizing s with
  | nil => simp [Sys.run, legalTrace]
  | cons e es ih => simp [Sys.run, legalTrace, ih, Bool.and_assoc]

theorem upload_ok_step (s : Sys) (t : Nat) (resp : UploadResponse)
    (hA : s.st.audioBlob = true) :
    (s.step (.uploadDone t (.ok resp))).1.timeouts
        = s.timeouts ++ [t + resolveExpectedDuration resp.expected_duration_sec * 1000] ∧
    (s.step (.uploadDone t (.ok resp))).1.st.pollingInterval = s.st.pollingInterval ∧
    (s.step (.uploadDone t (.ok resp))).2 = [.uploadReq] := by
  refine ⟨?_, ?_, ?_⟩ <;> simp [Sys.step, uploadAndTranslate, hA]

theorem upload_fail_step (s : Sys) (t : Nat) (o : UploadOutcome) (m : String)
    (hA : s.st.audioBlob = true) (hm : o.failureMessage = some m) :
    (s.step (.uploadDone t o)).1.st.recordingStatus = m ∧
    (s.step (.uploadDone t o)).1.st.translationId = s.st.translationId ∧
    (s.step (.uploadDone t o)).1.st.pollingInterval = s.st.pollingInterval ∧
    (s.step (.uploadDone t o)).1.timeouts = s.timeouts ∧
    (s.step (.uploadDone t o)).2 = [.uploadReq] := by
  cases o with
  | ok resp => simp [UploadOutcome.failureMessage] at hm
  | httpError code =>
      have hm' : m = "Error: " ++ jsErrorToString ("Upload failed: " ++ toString code) := by
        simpa [UploadOutcome.failureMessage] using hm.symm
      subst hm'
      refine ⟨?_, ?_, ?_, ?_, ?_⟩ <;> simp [Sys.step, uploadAndTranslate, hA]
  | netError msg =>
      have hm' : m = "Error: " ++ msg := by
        simpa [UploadOutcome.failureMessage] using hm.symm
      subst hm'
      refine ⟨?_, ?_, ?_, ?_, ?_⟩ <;> simp [Sys.step, uploadAndTranslate, hA]

theorem upload_noblob_step (s : Sys) (t : Nat) (o : UploadOutcome)
    (hA : s.st.audioBlob = false) :
    (s.step (.uploadDone t o)).1.timeouts = s.timeouts ∧
    (s.step (.uploadDone t o)).1.st.pollingInterval = s.st.pollingInterval ∧
    (s.step (.uploadDone t o)).2 = [] := by
  refine ⟨?_, ?_, ?_⟩ <;> simp [Sys.step, uploadAndTranslate, hA]

end SpeakEasier

namespace SpeakEasier.Conv

theorem collectTextLines_eq (ls : List String) :
    collectTextLines ls = (ls.filter claimKeep).map String.trim := by
  induction ls with
  | nil => rfl
  | cons l rest ih =>
      cases h1 : isAllDigits l.trim with
      | true => simp [collectTextLines, claimKeep, h1, ih]
      | false =>
          cases h2 : hasArrow l with
          | true => simp [collectTextLines, claimKeep, h1, h2, ih]
          | false =>
              by_cases h3 : l.trim = ""
              · simp [collectTextLines, claimKeep, h1, h2, h3, ih]
              · simp [collectTextLines, claimKeep, h1, h2, h3, ih]

end SpeakEasier.Conv

namespace SpeakEasier

/-- Claim C10: whenever translationId is the empty string, exactly the value
resetRecordingState leaves behind, checkTranslationStatus returns before the
fetch, issuing no status request and mutating no state. -/
theorem claim_C10 :
    (∀ (st : TIState) (r : PollOutcome), st.translationId = "" →
       checkTranslationStatus st r = (st, [])) ∧
    (∀ st : TIState, (resetRecordingState st).translationId = "") := by
  refine ⟨?_, ?_⟩
  · intro st r h
    simp [checkTranslationStatus, h]
  · intro st
    rfl

theorem claim_C10_witness :
    checkTranslationStatus initState (.ok "done") = (initState, []) ∧
    (resetRecordingState initState).translationId = "" :=
  ⟨claim_C10.1 initState (.ok "done") rfl, claim_C10.2 initState⟩

/-- Claim C5 fails as stated: the source reads the estimate with the JS
or-default, data.expected_duration_sec || 10, so a service-provided value of
0 is also replaced by the fallback 10 instead of being used. -/
theorem claim_C5_counterexample :
    (uploadAndTranslate 0 c5St (.ok ⟨"abc", some 0⟩)).1.expectedDuration = 10 ∧
    (10 : Nat) ≠ 0 := by
  exact ⟨rfl, by decide⟩

/-- Claim C5 amended: an omitted expected_duration_sec and a zero value (both
falsy in JS) default to 10 seconds; any nonzero provided value is used. -/
theorem claim_C5_amended (now : Nat) (st : TIState) (id : String)
    (hA : st.audioBlob = true) :
    (uploadAndTranslate now st (.ok ⟨id, none⟩)).1.expectedDuration = 10 ∧
    (uploadAndTranslate now st (.ok ⟨id, some 0⟩)).1.expectedDuration = 10 ∧
    (∀ n : Nat, n ≠ 0 →
       (uploadAndTranslate now st (.ok ⟨id, some n⟩)).1.expectedDuration = n) := by
  refine ⟨?_, ?_, ?_⟩
  · simp [uploadAndTranslate, hA, resolveExpectedDuration]
  · simp [uploadAndTranslate, hA, resolveExpectedDuration]
  · intro n hn
    simp [uploadAndTranslate, hA, resolveExpectedDuration, hn]

theorem claim_C5_witness :
    (uploadAndTranslate 0 c5St (.ok ⟨"abc", none⟩)).1.expectedDuration = 10 ∧
    (uploadAndTranslate 0 c5St (.ok ⟨"abc", some 7⟩)).1.expectedDuration = 7 :=
  ⟨(claim_C5_amended 0 c5St "abc" rfl).1,
   (claim_C5_amended 0 c5St "abc" rfl).2.2 7 (by decide)⟩

end SpeakEasier

namespace SpeakEasier.Conv

/-- Claim C9: formatTranscript keeps exactly the trimmed non-empty lines
that are neither pure digit sequences nor timestamp lines containing the
arrow marker, joined in order by single spaces, and maps the empty string to
the empty string. Stated as equality with a second definition written from
the claim wording. -/
theorem claim_C9 :
    (∀ s : String, formatTranscript s = claimFormatTranscript s) ∧
    formatTranscript "" = "" := by
  refine ⟨?_, rfl⟩
  intro s
  by_cases h : s = ""
  · simp [formatTranscript, claimFormatTranscript, h]
  · simp [formatTranscript, claimFormatTranscript, h, collectTextLines_eq]

/-- Claim C7 fails in one clause: on a non-2xx transcript response such as
404 the source takes no action at all, because the ok-guard has no else
branch and the catch never runs, so the failure is not even logged; the
entry still renders with audio only and nothing is shown or thrown. -/
theorem claim_C7_counterexample :
    (addTranslation 0 initConv c7Tr (.notOk 404)).2 = [.transcriptReq "abc"] ∧
    ((addTranslation 0 initConv c7Tr (.notOk 404)).2.filter
        ConvEffect.isLogError) = [] ∧
    (addTranslation 0 initConv c7Tr (.notOk 404)).1.conversations
        = [mkConvEntry 0 c7Tr] := by
  exact ⟨rfl, rfl, rfl⟩

/-- Claim C7 amended: after the entry is appended, a single best-effort
transcript fetch is attempted; on failure the entry remains in the log with
its audio references and no transcript, no error is shown or thrown, a
thrown transport error is logged, and a non-ok response is silently ignored
without logging. -/
theorem claim_C7_amended (t : Nat) (cs : ConvState) (tr : Translation) :
    (∀ code : Nat,
       addTranslation t cs tr (.notOk code)
         = ({ cs with
                conversations := cs.conversations ++ [mkConvEntry t tr]
                currentSourceLang := tr.sourceLanguage
                currentTargetLang := tr.targetLanguage },
            [.transcriptReq tr.translationId])) ∧
    (∀ msg : String,
       addTranslation t cs tr (.thrown msg)
         = ({ cs with
                conversations := cs.conversations ++ [mkConvEntry t tr]
                currentSourceLang := tr.sourceLanguage
                currentTargetLang := tr.targetLanguage },
            [.transcriptReq tr.translationId,
             .logError ("Error fetching transcript: " ++ msg)])) ∧
    (mkConvEntry t tr).targetTranscript = none := by
  exact ⟨fun code => rfl, fun msg => rfl, rfl⟩

end SpeakEasier.Conv

namespace SpeakEasier.Server

/-- Claim C6 fails in its pass-through clause: the endpoints default with
the JS or-default, so a provided but empty parameter value is also replaced
by the default instead of passing through unchanged; here a transcript
request with format set to the empty string is forwarded with format srt. -/
theorem claim_C6_counterexample :
    (transcriptArgs
        { language := some "target"
          target_lang := some "fr"
          source_lang := some "en"
          format := some "" }).2 = "srt" ∧
    ("" : String) ≠ "srt" := by
  exact ⟨rfl, by decide⟩

/-- Claim C6 amended: a missing or empty source_lang defaults to en, a
missing or empty target_lang to es, and a missing or empty transcript format
to srt; non-empty provided values pass through unchanged. -/
theorem claim_C6_amended :
    (uploadArgs none none = ("en", "es")) ∧
    (∀ s t : String, s ≠ "" → t ≠ "" → uploadArgs (some s) (some t) = (s, t)) ∧
    (uploadArgs (some "") (some "") = ("en", "es")) ∧
    (∀ q : TranscriptQuery, q.format = none → (transcriptArgs q).2 = "srt") ∧
    (∀ (q : TranscriptQuery) (f : String), q.format = some f → f ≠ "" →
       (transcriptArgs q).2 = f) ∧
    (∀ q : TranscriptQuery, q.format = some "" → (transcriptArgs q).2 = "srt") ∧
    (audioTargetLang none = "es") ∧
    (∀ s : String, s ≠ "" → audioTargetLang (some s) = s) := by
  refine ⟨rfl, ?_, rfl, ?_, ?_, ?_, rfl, ?_⟩
  · intro s t hs ht
    simp [uploadArgs, jsOr, hs, ht]
  · intro q hq
    simp [transcriptArgs, jsOr, hq]
  · intro q f hq hf
    simp [transcriptArgs, jsOr, hq, hf]
  · intro q hq
    simp [transcriptArgs, jsOr, hq]
  · intro s hs
    simp [audioTargetLang, jsOr, hs]

theorem claim_C6_witness :
    uploadArgs (some "fr") (some "de") = ("fr", "de") ∧
    (transcriptArgs
        { language := some "target"
          target_lang := some "fr"
          source_lang := some "en"
          format := some "webvtt" }).2 = "webvtt" ∧
    audioTargetLang (some "fr") = "fr" :=
  ⟨claim_C6_amended.2.1 "fr" "de" (by decide) (by decide),
   claim_C6_amended.2.2.2.2.1 _ "webvtt" rfl (by decide),
   claim_C6_amended.2.2.2.2.2.2.2 "fr" (by decide)⟩

end SpeakEasier.Server

namespace SpeakEasier

/-- Claim C1 fails as stated: when a status poll fails (here a 500), the
catch of checkTranslationStatus only sets the error status message and does
not clear the polling interval, which stays scheduled (next fire at 12000),
and the next legal interval fire issues a further status request. -/
theorem claim_C1_counterexample :
    legalEvent c1Sys (.intervalFire 9000 (.httpError 500)) = true ∧
    (c1Sys.step (.intervalFire 9000 (.httpError 500))).1.st.translationStatus
        = "Error: Error: Status check failed: 500" ∧
    (c1Sys.step (.intervalFire 9000 (.httpError 500))).1.st.pollingInterval
        = some 12000 ∧
    legalEvent (c1Sys.step (.intervalFire 9000 (.httpError 500))).1
        (.intervalFire 12000 (.ok "in progress")) = true ∧
    ((c1Sys.step (.intervalFire 9000 (.httpError 500))).1.step
        (.intervalFire 12000 (.ok "in progress"))).2 = [.statusReq "abc"] := by
  exact ⟨by decide, by decide, by decide, by decide, by decide⟩

/-- Claim C1 amended: a failing poll (non-2xx or network error) surfaces
the failure as a status message, but the polling interval is not cleared,
it stays scheduled for t + 3000, and the subsequent interval fire issues a
further status request. -/
theorem claim_C1_amended (s : Sys) (t code : Nat)
    (hid : s.st.translationId ≠ "") :
    (s.step (.intervalFire t (.httpError code))).1.st.translationStatus
        = "Error: " ++ jsErrorToString ("Status check failed: " ++ toString code) ∧
    (s.step (.intervalFire t (.httpError code))).1.st.pollingInterval
        = some (t + 3000) ∧
    (∀ msg : String,
       (s.step (.intervalFire t (.netError msg))).1.st.translationStatus
           = "Error: " ++ msg ∧
       (s.step (.intervalFire t (.netError msg))).1.st.pollingInterval
           = some (t + 3000)) ∧
    (∀ r : PollOutcome,
       .statusReq s.st.translationId ∈
         ((s.step (.intervalFire t (.httpError code))).1.step
             (.intervalFire (t + 3000) r)).2) := by
  refine ⟨?_, ?_, ?_, ?_⟩
  · simp [Sys.step, checkTranslationStatus, hid]
  · simp [Sys.step, checkTranslationStatus, hid]
  · intro msg
    exact ⟨by simp [Sys.step, checkTranslationStatus, hid], by simp [Sys.step, checkTranslationStatus, hid]⟩
  · intro r
    have hpres : (s.step (.intervalFire t (.httpError code))).1.st.translationId
        = s.st.translationId := by
      simp [Sys.step, checkTranslationStatus, hid]
    rw [← hpres]
    exact checkTS_emits_status
      { (s.step (.intervalFire t (.httpError code))).1.st with
          pollingInterval := some (t + 3000 + 3000) } r
      (fun h => hid (hpres.symm.trans h))

theorem claim_C1_witness :
    (c1Sys.step (.intervalFire 9000 (.httpError 500))).1.st.translationStatus
        = "Error: " ++ jsErrorToString ("Status check failed: " ++ toString 500) ∧
    (c1Sys.step (.intervalFire 9000 (.httpError 500))).1.st.pollingInterval
        = some (9000 + 3000) :=
  ⟨(claim_C1_amended c1Sys 9000 500 (by decide)).1,
   (claim_C1_amended c1Sys 9000 500 (by decide)).2.1⟩

/-- Claim C2 fails as stated: one second after a five second upload, a
language swap clears translationId and the polling interval, but the
deferred first-check setTimeout, whose handle the source never stores,
stays pending (fire time 5000) and later fires, starting a poll interval
and mutating the status message; starting a new recording cancels nothing,
leaving the polling interval and translationId of an in-flight job intact. -/
theorem claim_C2_counterexample :
    legalTrace initSys c2Events = true ∧
    (initSys.run c2Events).1.st.translationId = "" ∧
    (initSys.run c2Events).1.st.pollingInterval = none ∧
    (initSys.run c2Events).1.timeouts = [5000] ∧
    legalEvent (initSys.run c2Events).1 (.timeoutFire 5000) = true ∧
    ((initSys.run c2Events).1.step (.timeoutFire 5000)).1.st.pollingInterval
        = some 8000 ∧
    ((initSys.run c2Events).1.step (.timeoutFire 5000)).1.st.translationStatus
        = "Checking translation status..." ∧
    (c2RecSys.step (.startRecEvt 4000)).1.st.pollingInterval = some 5000 ∧
    (c2RecSys.step (.startRecEvt 4000)).1.st.translationId = "abc" := by
  exact ⟨by decide, by decide, by decide, by decide, by decide, by decide,
    by decide, by decide, by decide⟩

/-- Claim C2 amended: swapping languages clears the recurring polling
interval and the countdown interval and discards the in-flight job state
(translationId cleared), but does not cancel the deferred first-check
setTimeout, whose handle is never stored; starting a new recording cancels
no timer and discards no job state. -/
theorem claim_C2_amended (s : Sys) (t : Nat) :
    ((s.step (.swapEvt t)).1.st.pollingInterval = none ∧
     (s.step (.swapEvt t)).1.st.countdownInterval = none ∧
     (s.step (.swapEvt t)).1.st.translationId = "" ∧
     (s.step (.swapEvt t)).1.timeouts = s.timeouts) ∧
    ((s.step (.startRecEvt t)).1.st.pollingInterval = s.st.pollingInterval ∧
     (s.step (.startRecEvt t)).1.st.countdownInterval = s.st.countdownInterval ∧
     (s.step (.startRecEvt t)).1.st.translationId = s.st.translationId ∧
     (s.step (.startRecEvt t)).1.timeouts = s.timeouts) :=
  ⟨⟨rfl, rfl, rfl, rfl⟩, ⟨rfl, rfl, rfl, rfl⟩⟩

/-- Claim C3: when a poll observes a terminal status (done or dubbed) on an
in-flight job, the polling interval and the countdown interval are cleared
and the step issues exactly the status request, one audio fetch and the
completion event; and from a state whose interval is cleared and with no
deferred timer pending, a legal continuation without a new upload issues no
request at all, in particular no further status call. -/
theorem claim_C3 :
    (∀ (s : Sys) (t : Nat) (status : String),
       s.st.translationId ≠ "" →
       status = "done" ∨ status = "dubbed" →
       (s.step (.intervalFire t (.ok status))).1.st.pollingInterval = none ∧
       (s.step (.intervalFire t (.ok status))).1.st.countdownInterval = none ∧
       (s.step (.intervalFire t (.ok status))).2
           = [.statusReq s.st.translationId, .audioReq s.st.translationId,
              .emitComplete s.st.translationId]) ∧
    (∀ (s : Sys) (es : List Event),
       s.st.pollingInterval = none → s.timeouts = [] →
       legalTrace s es = true → (∀ e ∈ es, e.isUpload = false) →
       (s.run es).2 = []) := by
  constructor
  · intro s t status hid ht
    have hb : (status == "done" || status == "dubbed") = true := by
      rcases ht with rfl | rfl <;> rfl
    refine ⟨?_, ?_, ?_⟩ <;>
      simp [Sys.step, checkTranslationStatus, loadTranslatedAudio, hid, hb]
  · intro s es h1 h2 hL hU
    exact (p0_run es s ⟨h2, h1⟩ hU hL).2

theorem claim_C3_witness :
    ((c3Sys.step (.intervalFire 9000 (.ok "done"))).1.st.pollingInterval = none ∧
     (c3Sys.step (.intervalFire 9000 (.ok "done"))).1.st.countdownInterval = none ∧
     (c3Sys.step (.intervalFire 9000 (.ok "done"))).2
         = [.statusReq "abc", .audioReq "abc", .emitComplete "abc"]) ∧
    (c3QuietSys.run [.swapEvt 12000]).2 = [] :=
  ⟨claim_C3.1 c3Sys 9000 "done" (by decide) (Or.inl rfl),
   claim_C3.2 c3QuietSys [.swapEvt 12000] rfl rfl (by decide) (by decide)⟩

end SpeakEasier

namespace SpeakEasier

/-- Claim C4: in a legal run with a single upload, every status request is
issued no earlier than the upload time plus the resolved expected duration
in milliseconds; a firing deferred timer starts the polling interval with
its first fire 3000 ms later; an interval fire reschedules the interval to
t + 3000 unless the callback cleared it; and a successful upload schedules
exactly one deferred timer, due expectedDuration * 1000 ms after it. -/
theorem claim_C4 (pre post : List Event) (tu : Nat) (resp : UploadResponse)
    (hL : legalTrace initSys (pre ++ .uploadDone tu (.ok resp) :: post) = true)
    (hpre : ∀ e ∈ pre, e.isUpload = false)
    (hpost : ∀ e ∈ post, e.isUpload = false) :
    (∀ p ∈ (initSys.run (pre ++ .uploadDone tu (.ok resp) :: post)).2,
       Request.isStatus p.2 = true →
       tu + resolveExpectedDuration resp.expected_duration_sec * 1000 ≤ p.1) ∧
    (∀ (s : Sys) (t : Nat),
       (s.step (.timeoutFire t)).1.st.pollingInterval = some (t + 3000)) ∧
    (∀ (s : Sys) (t : Nat) (r : PollOutcome),
       (s.step (.intervalFire t r)).1.st.pollingInterval = some (t + 3000) ∨
       (s.step (.intervalFire t r)).1.st.pollingInterval = none) ∧
    (∀ (s : Sys) (t : Nat) (resp2 : UploadResponse), s.st.audioBlob = true →
       (s.step (.uploadDone t (.ok resp2))).1.timeouts
         = s.timeouts ++ [t + resolveExpectedDuration resp2.expected_duration_sec * 1000]) := by
  refine ⟨?_, fun s t => rfl, ?_, fun s t resp2 hA => (upload_ok_step s t resp2 hA).1⟩
  · -- the no-early-status part
    have hLsplit : legalTrace initSys pre = true ∧
        legalTrace (initSys.run pre).1 (.uploadDone tu (.ok resp) :: post) = true := by
      have := legalTrace_append initSys pre (.uploadDone tu (.ok resp) :: post)
      rw [this] at hL
      simpa using hL
    have hLrest : legalEvent (initSys.run pre).1 (.uploadDone tu (.ok resp)) = true ∧
        legalTrace ((initSys.run pre).1.step (.uploadDone tu (.ok resp))).1 post = true := by
      simpa [legalTrace] using hLsplit.2
    have hpre0 : P0Prop (initSys.run pre).1 ∧ (initSys.run pre).2 = [] :=
      p0_run pre initSys ⟨rfl, rfl⟩ hpre hLsplit.1
    have hPb : PbProp (tu + resolveExpectedDuration resp.expected_duration_sec * 1000)
        ((initSys.run pre).1.step (.uploadDone tu (.ok resp))).1 := by
      cases hA : (initSys.run pre).1.st.audioBlob with
      | true =>
          obtain ⟨ht, hpoll, _⟩ := upload_ok_step (initSys.run pre).1 tu resp hA
          constructor
          · intro x hx
            rw [ht, hpre0.1.1] at hx
            simp at hx
            omega
          · intro tp htp
            rw [hpoll, hpre0.1.2] at htp
            exact absurd htp (by simp)
      | false =>
          obtain ⟨ht, hpoll, _⟩ := upload_noblob_step (initSys.run pre).1 tu _ hA
          constructor
          · intro x hx
            rw [ht, hpre0.1.1] at hx
            simp at hx
          · intro tp htp
            rw [hpoll, hpre0.1.2] at htp
            exact absurd htp (by simp)
    intro p hp hstat
    rw [run_append] at hp
    rcases List.mem_append.mp hp with hp1 | hp2
    · rw [hpre0.2] at hp1
      simp at hp1
    · have hrw : ((initSys.run pre).1.run (Event.uploadDone tu (.ok resp) :: post)).2
          = ((initSys.run pre).1.step (.uploadDone tu (.ok resp))).2.map (fun r => (tu, r))
            ++ (((initSys.run pre).1.step (.uploadDone tu (.ok resp))).1.run post).2 := rfl
      rw [hrw] at hp2
      rcases List.mem_append.mp hp2 with hp3 | hp4
      · exfalso
        cases hA : (initSys.run pre).1.st.audioBlob with
        | true =>
            rw [(upload_ok_step (initSys.run pre).1 tu resp hA).2.2] at hp3
            simp at hp3
            rw [hp3] at hstat
            simp [Request.isStatus] at hstat
        | false =>
            rw [(upload_noblob_step (initSys.run pre).1 tu _ hA).2.2] at hp3
            simp at hp3
      · exact pb_run post ((initSys.run pre).1.step (.uploadDone tu (.ok resp))).1
          (tu + resolveExpectedDuration resp.expected_duration_sec * 1000)
          hPb hpost hLrest.2 p hp4 hstat
  · -- the interval reschedule part
    intro s t r
    rcases checkTS_polling { s.st with pollingInterval := some (t + 3000) } r with hc | hc
    · left; exact hc.trans rfl
    · right; exact hc

theorem claim_C4_witness :
    legalTrace initSys (c4Pre ++ .uploadDone 0 (.ok c4Resp) :: c4Post) = true ∧
    (8000, Request.statusReq "abc")
        ∈ (initSys.run (c4Pre ++ .uploadDone 0 (.ok c4Resp) :: c4Post)).2 ∧
    0 + resolveExpectedDuration c4Resp.expected_duration_sec * 1000 ≤ 8000 :=
  ⟨by decide, by decide,
   (claim_C4 c4Pre c4Post 0 c4Resp (by decide) (by decide) (by decide)).1
     (8000, .statusReq "abc") (by decide) (by decide)⟩

/-- Claim C8: a failing upload (non-2xx or network error) from a component
with no timers pending surfaces the failure as the recording status
message, leaves the job state untouched, schedules no deferred timer and no
polling interval, issues only the one upload request, and every legal
continuation without a new upload issues no request at all, in particular
zero status calls. -/
theorem claim_C8 (s : Sys) (t : Nat) (o : UploadOutcome) (m : String)
    (hA : s.st.audioBlob = true) (hm : o.failureMessage = some m)
    (hP : P0Prop s) :
    (s.step (.uploadDone t o)).1.st.recordingStatus = m ∧
    (s.step (.uploadDone t o)).1.st.translationId = s.st.translationId ∧
    (s.step (.uploadDone t o)).1.timeouts = [] ∧
    (s.step (.uploadDone t o)).1.st.pollingInterval = none ∧
    (s.step (.uploadDone t o)).2 = [.uploadReq] ∧
    (∀ es : List Event,
       legalTrace (s.step (.uploadDone t o)).1 es = true →
       (∀ e ∈ es, e.isUpload = false) →
       ((s.step (.uploadDone t o)).1.run es).2 = []) := by
  obtain ⟨h1, h2, h3, h4, h5⟩ := upload_fail_step s t o m hA hm
  have hP' : P0Prop (s.step (.uploadDone t o)).1 :=
    ⟨h4.trans hP.1, h3.trans hP.2⟩
  refine ⟨h1, h2, h4.trans hP.1, h3.trans hP.2, h5, ?_⟩
  intro es hLes hUes
  exact (p0_run es _ hP' hUes hLes).2

theorem claim_C8_witness :
    (c8Sys.step (.uploadDone 0 (.httpError 500))).1.st.recordingStatus
        = "Error: Error: Upload failed: 500" ∧
    (c8Sys.step (.uploadDone 0 (.httpError 500))).1.timeouts = [] ∧
    (c8Sys.step (.uploadDone 0 (.httpError 500))).1.st.pollingInterval = none ∧
    ((c8Sys.step (.uploadDone 0 (.httpError 500))).1.run [.swapEvt 10]).2 = [] :=
  have h := claim_C8 c8Sys 0 (.httpError 500) "Error: Error: Upload failed: 500"
    rfl (by decide) ⟨rfl, rfl⟩
  ⟨h.1, h.2.2.1, h.2.2.2.1, h.2.2.2.2.2 [.swapEvt 10] (by decide) (by decide)⟩

end SpeakEasier
